import Mathlib

/-!
# Verification of the CP-SAT log overview report layer

Shallow embedding of `src/_app/overview.py` (CP-SAT-Log-Analyzer).
Pure rendering functions become Lean functions returning the list of UI
events they emit; Python exceptions (`KeyError`, `ValueError`) become an
explicit error component threaded through the result.  Blocks from the
upstream `cpsat_log_parser` library (not part of the analysed source) are
modelled as records exposing exactly the accessors `overview.py` uses.
-/

namespace Overview

/-- Python exceptions relevant to `overview.py`: dictionary access raises
`KeyError`, numeric conversion raises `ValueError`. -/
inductive PyError where
  | keyError (key : String)
  | valueError (msg : String)
deriving DecidableEq, Repr

/-- Model of a Python float value: a finite value (modelled exactly as a
rational), a signed infinity, or NaN. -/
inductive PyFloat where
  | finite (q : ℚ)
  | inf (neg : Bool)
  | nan
deriving DecidableEq, Repr

/-- Digits of a list of characters interpreted as a base-10 natural number. -/
def digitsToNat : List Char → Nat
  | [] => 0
  | c :: rest => digitsToNat rest + c.toNat.sub 48 * 10 ^ rest.length

/-- The exact rational `mant / 10^fracLen * 10^ex`, assembled with integer
arithmetic and the normalizing constructor `mkRat`. -/
def scaledValue (mant : ℕ) (fracLen : ℕ) (ex : ℤ) : ℚ :=
  let d : ℤ := ex - fracLen
  if 0 ≤ d then ((mant * 10 ^ d.toNat : ℕ) : ℚ)
  else mkRat mant (10 ^ (-d).toNat)

/-- Parse an unsigned decimal literal `digits [. digits] [(e|E) [sign] digits]`
into an exact rational, requiring at least one digit in the mantissa and
no trailing characters.  Models the numeric part of CPython's float grammar
(digit-group underscores are not modelled; none of the analysed inputs
use them). -/
def parseDecimal (cs : List Char) : Option ℚ :=
  let intPart := cs.takeWhile Char.isDigit
  let rest := cs.dropWhile Char.isDigit
  let fracPart :=
    match rest with
    | '.' :: r => r.takeWhile Char.isDigit
    | _ => []
  let rest2 :=
    match rest with
    | '.' :: r => r.dropWhile Char.isDigit
    | _ => rest
  if intPart.length + fracPart.length = 0 then none
  else
    let mant := digitsToNat (intPart ++ fracPart)
    match rest2 with
    | [] => some (scaledValue mant fracPart.length 0)
    | e :: r =>
      if e = 'e' ∨ e = 'E' then
        let (eneg, digs) :=
          match r with
          | '+' :: r2 => (false, r2)
          | '-' :: r2 => (true, r2)
          | r2 => (false, r2)
        if digs ≠ [] ∧ digs.all Char.isDigit then
          let ex : ℤ :=
            if eneg then -(digitsToNat digs : ℤ) else (digitsToNat digs : ℤ)
          some (scaledValue mant fracPart.length ex)
        else none
      else none

/-- Whitespace as stripped by CPython's float conversion. -/
def isPySpace (c : Char) : Bool :=
  c = ' ' ∨ c = '\t' ∨ c = '\n' ∨ c = '\r'

/-- Model of Python's builtin `float(str)`: strips surrounding whitespace,
accepts an optional sign followed by `inf`/`infinity`/`nan`
(case-insensitive) or a decimal literal; anything else raises `ValueError`.
In particular `float("inf")` succeeds and yields positive infinity. -/
def pyFloat (s : String) : Except PyError PyFloat :=
  let cs := ((s.data.dropWhile isPySpace).reverse.dropWhile isPySpace).reverse
  let (neg, body) :=
    match cs with
    | '+' :: rest => (false, rest)
    | '-' :: rest => (true, rest)
    | rest => (false, rest)
  let lower := body.map Char.toLower
  if lower = ['i', 'n', 'f'] ∨ lower = ['i', 'n', 'f', 'i', 'n', 'i', 't', 'y'] then
    .ok (.inf neg)
  else if lower = ['n', 'a', 'n'] then
    .ok .nan
  else
    match parseDecimal body with
    | some q => .ok (.finite (if neg then -q else q))
    | none => .error (.valueError s)

/-- Round the fraction `n / d` (with `d > 0`) to the nearest integer, ties
to even — the rounding used by Python's fixed-point float formatting.
`f` is the floor; `r2` is twice the remainder, compared against `d`. -/
def roundHalfEvenScaled (n : ℤ) (d : ℕ) : ℤ :=
  let f := n.fdiv (d : ℤ)
  let r2 := 2 * (n - f * (d : ℤ))
  if r2 < (d : ℤ) then f
  else if (d : ℤ) < r2 then f + 1
  else if f % 2 = 0 then f else f + 1

/-- Left-pad a numeral string with zeros up to width `w`. -/
def padZeros (w : Nat) (s : String) : String :=
  String.mk (List.replicate (w - s.length) '0') ++ s

/-- Fixed-point rendering of a nonnegative integer `n` of scaled units as a
decimal with `prec` fractional digits. -/
def renderScaled (prec : Nat) (n : Nat) : String :=
  let ip := n / 10 ^ prec
  let fp := n % 10 ^ prec
  if prec = 0 then toString ip
  else toString ip ++ "." ++ padZeros prec (toString fp)

/-- Model of Python's f-string fixed-point formatting of a float with
`prec` digits after the decimal point, e.g. the formatting in
`f"{gap:.2f}%"`.  Infinities render as `inf`/`-inf` and NaN as `nan`,
as in Python. -/
def formatFixed (prec : Nat) (x : PyFloat) : String :=
  match x with
  | .inf false => "inf"
  | .inf true => "-inf"
  | .nan => "nan"
  | .finite q =>
    let scaled := roundHalfEvenScaled (q.num * ((10 ^ prec : ℕ) : ℤ)) q.den
    if scaled < 0 then "-" ++ renderScaled prec scaled.natAbs
    else renderScaled prec scaled.natAbs

/-- A Python dict with string keys and string values, as produced by
`ResponseBlock.to_dict()`.  Lookup keeps the first binding. -/
def PyDict := List (String × String)

/-- Python `d[k]`: the value at `k`, or raise `KeyError(k)`. -/
def dictGet (d : PyDict) (k : String) : Except PyError String :=
  match List.lookup k d with
  | some v => .ok v
  | none => .error (.keyError k)

/-- Python `k in d`. -/
def dictContains (d : PyDict) (k : String) : Bool :=
  (List.lookup k d).isSome

/-- Python's `try: ... except ValueError: fallback` around a computation:
a `ValueError` is replaced by the fallback value, any other exception
(for instance a `KeyError`) keeps propagating. -/
def tryExceptValueError {α : Type} (x : Except PyError α) (fallback : α) :
    Except PyError α :=
  match x with
  | .ok v => .ok v
  | .error (.valueError _) => .ok fallback
  | .error (.keyError k) => .error (.keyError k)

/-- One left-to-right pass of Python's `str.replace` over a character list:
wherever the (non-empty) pattern occurs, it is replaced and scanning resumes
after the inserted replacement. -/
def pyReplaceAux (pat repl : List Char) : List Char → List Char
  | [] => []
  | c :: rest =>
    if h : pat ≠ [] ∧ List.isPrefixOf pat (c :: rest) then
      repl ++ pyReplaceAux pat repl ((c :: rest).drop pat.length)
    else
      c :: pyReplaceAux pat repl rest
termination_by l => l.length
decreasing_by
  · have hpos : 0 < pat.length := List.length_pos.mpr h.1
    simp only [List.length_drop, List.length_cons]
    omega
  · simp only [List.length_cons]
    omega

/-- Python's `s.replace(pat, repl)` for a non-empty pattern. -/
def pyReplace (s pat repl : String) : String :=
  String.mk (pyReplaceAux pat.data repl.data s.data)

/-! ## Block records

The block classes live in the `cpsat_log_parser` package of the repository,
which is not part of the analysed source; each record below is modelled from
the spec and exposes exactly the accessors `overview.py` calls on it. -/

/-- Modelled from the spec: `SolverBlock` "exposes a semantic version
(major, minor, patch as integers), a raw version string, worker count,
and a parameter mapping"; the accessors are opaque record fields here. -/
structure SolverBlock where
  get_parsed_version : ℕ × ℕ × ℕ
  get_version : String
  get_number_of_workers : ℤ
  get_parameters : List (String × String)
deriving DecidableEq, Repr

/-- Modelled from the spec: `InitialModelBlock` "exposes variable count,
constraint count, and a boolean is-optimization flag". -/
structure InitialModelBlock where
  get_num_variables : ℤ
  get_num_constraints : ℤ
  is_optimization : Bool
deriving DecidableEq, Repr

/-- Modelled from the spec: `SearchProgressBlock` "exposes presolve duration
(seconds) and can produce a plottable time series of bound/objective
progression (or report no data)"; the underlying data points are the
`data` field. -/
structure SearchProgressBlock where
  get_presolve_time : ℚ
  data : List (ℚ × ℚ)
deriving DecidableEq, Repr

/-- A chart model built from a time series, the output of `as_plotly`. -/
structure Fig where
  points : List (ℚ × ℚ)
deriving DecidableEq, Repr

/-- Modelled from the spec: `as_plotly` produces a chart model from the
block's time series, or reports no data (a falsy result) when there are
no data points. -/
def SearchProgressBlock.as_plotly (b : SearchProgressBlock) : Option Fig :=
  if b.data.isEmpty then none else some ⟨b.data⟩

/-- Modelled from the spec: `ResponseBlock` exposes the response "as a flat
mapping of string to string" (`to_dict`), and a gap accessor that yields the
solver-reported gap or fails (`get_gap`, whose `ValueError` the caller
catches). -/
structure ResponseBlock where
  to_dict : PyDict
  get_gap : Except PyError PyFloat

/-- Modelled from the spec: `PresolveSummaryBlock` "exposes whether the
instance was fully solved during presolve". -/
structure PresolveSummaryBlock where
  is_solved_by_presolve : Bool
deriving DecidableEq, Repr

/-- Modelled from the spec: the `LogParser` holds the free-text comment lines
and, via `get_block_of_type_or_none`, zero or one block of each kind; the
registry lookup is modelled as one optional field per kind. -/
structure LogParser where
  comments : List String
  solver_block : Option SolverBlock
  initial_model_block : Option InitialModelBlock
  search_progress_block : Option SearchProgressBlock
  response_block : Option ResponseBlock
  presolve_block : Option PresolveSummaryBlock

/-! ## UI events

A `st.metric` / `st.markdown` / ... call is modelled as the emission of one
event; each rendering function returns the list of events it emits (the
column-layout containers carry no data and are elided). -/

/-- The value handed to `st.metric`: Python `None`, a string, an int or a
float. -/
inductive MetricValue where
  | none
  | str (s : String)
  | int (n : ℤ)
  | float (x : PyFloat)
deriving DecidableEq, Repr

/-- One widget emission of `overview.py`. -/
inductive UIEvent where
  | subheader (title : String)
  | chatComment (text : String)
  | metric (label : String) (value : MetricValue) (help : String)
      (delta : Option String) (deltaColor : Option String)
  | markdown (text : String)
  | json (params : List (String × String))
  | plotlyChart (fig : Fig)
  | info (text : String)
  | error (text : String)
deriving DecidableEq, Repr

/-! ## Help texts (verbatim from `overview.py`) -/

def versionHelp : String :=
  "CP-SAT has seen significant performance improvements over the last years. Make sure to use the latest version."

def workersHelp : String :=
  "CP-SAT has different parallelization tiers, triggered by the number of workers. More workers can improve performance. Fine more information [here](https://github.com/google/or-tools/blob/main/ortools/sat/docs/troubleshooting.md#improving-performance-with-multiple-workers)"

def statusHelp : String :=
  "\nCP-SAT can have 5 different statuses:\n- `UNKNOWN`: The solver timed out before finding a solution or proving infeasibility.\n- `OPTIMAL`: The solver found an optimal solution. This is the best possible status.\n- `FEASIBLE`: The solver found a feasible solution, but it is not guaranteed to be optimal.\n- `INFEASIBLE`: The solver proved that the problem is infeasible. This often indicates a bug in the model.\n- `MODEL_INVALID`: Definitely a bug. Should rarely happen.\n"

def timeHelp : String :=
  "The total time spent by the solver. This includes the time spent in presolve and the time spent in the search."

def presolveHelp : String :=
  "The time spent in presolve. This is usually a small fraction of the total time."

def variablesHelp : String :=
  "CP-SAT can handle (hundreds of) thousands of variables. This just gives a rough estimate of the size of the problem. Check *Initial Optimization Model* for more information. Many variables may also be removed during presolve, check *Presolve Summary*."

def constraintsHelp : String :=
  "CP-SAT can handle (hundreds of) thousands of constraints. More important than the number is the type of constraints. Some constraints are more expensive than others. Check *Initial Optimization Model* for more information."

def typeHelp : String :=
  "Is the model an optimization or satisfaction model?"

def objectiveHelp : String :=
  "Value of the best solution found."

def boundHelp : String :=
  "Bound on how good the best solution can be. If it matches the objective, the solution is optimal."

def gapHelp : String :=
  "The gap is the difference between the objective and the best bound. The smaller the better. A gap of 0% means that the solution is optimal."

def parametersIntro : String :=
  "*CP-SAT was setup with the following parameters:*\n"

def parametersOutro : String :=
  "*You can find more information about the parameters [here](https://github.com/google/or-tools/blob/stable/ortools/sat/sat_parameters.proto).*"

def presolveSolvedInfo : String :=
  "The model was solved by presolve."

/-- Python's `str` of a `KeyError` carries the repr of the key:
`str(KeyError("status"))` is the key wrapped in single quotes. -/
def keyRepr (k : String) : String :=
  "\x27" ++ k ++ "\x27"

/-- The message of the `except KeyError` handler at the bottom of
`show_overview`. -/
def incompleteLogMessage (k : String) : String :=
  "Error parsing information. Log seems to be incomplete: " ++ keyRepr k ++
    ". Make sure you enter the full log without any modifications. The parser is sensitive to new lines."

/-! ## The rendering functions of `overview.py` -/

/-- Embeds `add_version_gadget`: absent block renders the string `"N/A"`;
otherwise the parsed `(major, minor, patch)` flags `"outdated"` exactly when
`major < 9 or (major == 9 and minor < 10)`. -/
def add_version_gadget (solver_block : Option SolverBlock) : List UIEvent :=
  match solver_block with
  | none =>
    [.metric "CP-SAT Version" (.str "N/A") versionHelp none (some "inverse")]
  | some sb =>
    let (major, minor, _patch) := sb.get_parsed_version
    if major < 9 ∨ (major = 9 ∧ minor < 10) then
      [.metric "CP-SAT Version" (.str sb.get_version) versionHelp
        (some "outdated") (some "inverse")]
    else
      [.metric "CP-SAT Version" (.str sb.get_version) versionHelp none none]

/-- Embeds `add_number_of_workers_gadget`: the metric value is the block's
worker count, or Python `None` when the block is absent. -/
def add_number_of_workers_gadget (solver_block : Option SolverBlock) :
    List UIEvent :=
  [.metric "Number of workers"
    (match solver_block with
     | some sb => .int sb.get_number_of_workers
     | none => .none)
    workersHelp none none]

/-- Embeds `show_parameters`: emits the parameter listing only when the block
is present and its parameter dict is non-empty (Python truthiness). -/
def show_parameters (solver_block : Option SolverBlock) : List UIEvent :=
  match solver_block with
  | some sb =>
    if sb.get_parameters.isEmpty then []
    else [.markdown parametersIntro, .json sb.get_parameters,
          .markdown parametersOutro]
  | none => []

/-- Embeds `show_status_metrics`: reads `response["status"]` (a `KeyError`
aborts before any of the three metrics is emitted), then formats the wall
time with `float(...)` (an unparseable value raises an uncaught `ValueError`
after the status metric was emitted), then the presolve time. -/
def show_status_metrics (response : PyDict)
    (search_progress_block : Option SearchProgressBlock) :
    List UIEvent × Option PyError :=
  match dictGet response "status" with
  | .error e => ([], some e)
  | .ok status =>
    let ev1 := UIEvent.metric "Status" (.str status) statusHelp none none
    let timeVal : Except PyError MetricValue :=
      if dictContains response "walltime" then
        match dictGet response "walltime" with
        | .error e => .error e
        | .ok w =>
          match pyFloat w with
          | .error e => .error e
          | .ok f => .ok (.str (formatFixed 3 f ++ "s"))
      else .ok .none
    match timeVal with
    | .error e => ([ev1], some e)
    | .ok tv =>
      let ev2 := UIEvent.metric "Time" tv timeHelp none none
      let ev3 := UIEvent.metric "Presolve"
        (match search_progress_block with
         | some spb =>
           .str (formatFixed 3 (.finite spb.get_presolve_time) ++ "s")
         | none => .none)
        presolveHelp none none
      ([ev1, ev2, ev3], none)

/-- Embeds `show_model_metrics`: variable count, constraint count and the
optimization/satisfaction classification, each Python `None` when the
`InitialModelBlock` is absent. -/
def show_model_metrics (initial_model_block : Option InitialModelBlock) :
    List UIEvent :=
  [.metric "Variables"
     (match initial_model_block with
      | some imb => .int imb.get_num_variables
      | none => .none) variablesHelp none none,
   .metric "Constraints"
     (match initial_model_block with
      | some imb => .int imb.get_num_constraints
      | none => .none) constraintsHelp none none,
   .metric "Type"
     (match initial_model_block with
      | some imb =>
        .str (if imb.is_optimization then "Optimization" else "Satisfaction")
      | none => .none) typeHelp none none]

/-- `try: float(response[key]) except ValueError: None` — the dictionary
access may raise a `KeyError`, which the handler does not catch. -/
def parseFloatField (response : PyDict) (key : String) :
    Except PyError (Option PyFloat) :=
  tryExceptValueError
    (match dictGet response key with
     | .error e => .error e
     | .ok s =>
       match pyFloat s with
       | .error e => .error e
       | .ok f => .ok (some f)) none

/-- The value argument of an objective/bound metric: a parsed float or
Python `None`. -/
def floatOptVal (o : Option PyFloat) : MetricValue :=
  match o with
  | some f => .float f
  | none => .none

/-- Embeds `show_objective_metrics`: objective and best bound are parsed
with `float` under `except ValueError` (so only parse failures fall back to
`None`, a missing key propagates as `KeyError`); the gap comes from the
block's own `get_gap` accessor under `except ValueError`, and renders as
`f"{gap:.2f}%"` when available. -/
def show_objective_metrics (response : PyDict)
    (response_block : Option ResponseBlock) : List UIEvent × Option PyError :=
  match parseFloatField response "objective" with
  | .error e => ([], some e)
  | .ok obj =>
    let ev1 := UIEvent.metric "Objective" (floatOptVal obj) objectiveHelp
      none none
    match parseFloatField response "best_bound" with
    | .error e => ([ev1], some e)
    | .ok bound =>
      let ev2 := UIEvent.metric "Best bound" (floatOptVal bound) boundHelp
        none none
      match tryExceptValueError
          (match response_block with
           | some rb =>
             match rb.get_gap with
             | .error e => .error e
             | .ok g => .ok (some g)
           | none => .ok none) none with
      | .error e => ([ev1, ev2], some e)
      | .ok gap =>
        let ev3 := UIEvent.metric "Gap"
          (match gap with
           | some g => .str (formatFixed 2 g ++ "%")
           | none => .none) gapHelp none none
        ([ev1, ev2, ev3], none)

/-- Result of `show_search_plot`: whether `as_plotly` was invoked, and the
events emitted. -/
structure SearchPlotResult where
  asPlotlyCalled : Bool
  events : List UIEvent
deriving DecidableEq, Repr

/-- Embeds `show_search_plot`: when the status is OPTIMAL or FEASIBLE and
both the search-progress and initial-model blocks are present with an
optimization model, `as_plotly` is invoked and a truthy figure is charted
(a falsy figure is discarded after the call). -/
def show_search_plot (response : PyDict)
    (search_progress_block : Option SearchProgressBlock)
    (initial_model_block : Option InitialModelBlock) : SearchPlotResult :=
  match List.lookup "status" response, search_progress_block,
      initial_model_block with
  | some s, some spb, some imb =>
    if (s = "OPTIMAL" ∨ s = "FEASIBLE") ∧ imb.is_optimization then
      match spb.as_plotly with
      | some fig => ⟨true, [.plotlyChart fig]⟩
      | none => ⟨true, []⟩
    else ⟨false, []⟩
  | _, _, _ => ⟨false, []⟩

/-- The comment text written inside the chat message of `show_overview`:
newline-join of the comment lines, then `replace("\\", "")`,
`replace("[", "\\[*")`, `replace("]", "*\\]")` in that order. -/
def renderComment (comments : List String) : String :=
  let comment := String.intercalate "\n" comments
  let comment := pyReplace comment "\\" ""
  let comment := pyReplace comment "[" "\\[*"
  pyReplace comment "]" "*\\]"

/-- Events and exception of the `try` body of `show_overview`, together with
whether `as_plotly` was invoked inside it. -/
structure BodyResult where
  events : List UIEvent
  asPlotlyCalled : Bool
  err : Option PyError

/-- The `try` body of `show_overview`: block lookups, the two solver
gadgets and the parameter listing, then the status / model / objective
metric rows, the search plot and the presolve notice.  An exception raised
by a metric row stops the body; the events already emitted remain. -/
def show_overview_body (parser : LogParser) : BodyResult :=
  let sb := parser.solver_block
  let imb := parser.initial_model_block
  let spb := parser.search_progress_block
  let rb := parser.response_block
  let evA := add_version_gadget sb ++ add_number_of_workers_gadget sb ++
    show_parameters sb
  let response : PyDict :=
    match rb with
    | some r => r.to_dict
    | none => []
  match show_status_metrics response spb with
  | (evS, some e) => ⟨evA ++ evS, false, some e⟩
  | (evS, none) =>
    let evM := show_model_metrics imb
    match show_objective_metrics response rb with
    | (evO, some e) => ⟨evA ++ evS ++ evM ++ evO, false, some e⟩
    | (evO, none) =>
      let plot := show_search_plot response spb imb
      let evP : List UIEvent :=
        match parser.presolve_block with
        | some p =>
          if p.is_solved_by_presolve then [.info presolveSolvedInfo] else []
        | none => []
      ⟨evA ++ evS ++ evM ++ evO ++ plot.events ++ evP, plot.asPlotlyCalled,
        none⟩

/-- Result of `show_overview`: the emitted events, whether `as_plotly` was
invoked, and the exception escaping the function, if any (`KeyError` is
caught by its handler, a `ValueError` escapes). -/
structure OverviewResult where
  events : List UIEvent
  asPlotlyCalled : Bool
  raised : Option PyError

/-- Embeds `show_overview`: subheader, optional comment chat message, then
the `try` body; a `KeyError` from the body is rendered as the
incomplete-log error message, while any other exception escapes. -/
def show_overview (parser : LogParser) : OverviewResult :=
  let pre := [UIEvent.subheader "Overview"] ++
    (if parser.comments.isEmpty then []
     else [UIEvent.chatComment (renderComment parser.comments)])
  let body := show_overview_body parser
  match body.err with
  | none => ⟨pre ++ body.events, body.asPlotlyCalled, none⟩
  | some (.keyError k) =>
    ⟨pre ++ body.events ++ [.error (incompleteLogMessage k)],
      body.asPlotlyCalled, none⟩
  | some (.valueError m) =>
    ⟨pre ++ body.events, body.asPlotlyCalled, some (.valueError m)⟩

/-! ## Observation helpers used by the theorems -/

/-- Does an event list contain a metric with the given label? -/
def emitsMetric (label : String) (evs : List UIEvent) : Bool :=
  evs.any fun e =>
    match e with
    | .metric l _ _ _ _ => l = label
    | _ => false

/-- The value of the first metric with the given label, if any. -/
def metricValue (label : String) (evs : List UIEvent) : Option MetricValue :=
  match evs.filterMap (fun e =>
    match e with
    | .metric l v _ _ _ => if l = label then some v else none
    | _ => none) with
  | [] => none
  | v :: _ => some v

/-- The delta of the first metric with the given label, if any. -/
def metricDelta (label : String) (evs : List UIEvent) : Option (Option String) :=
  match evs.filterMap (fun e =>
    match e with
    | .metric l _ _ d _ => if l = label then some d else none
    | _ => none) with
  | [] => none
  | d :: _ => some d

/-- Does an event list contain an `st.error` message? -/
def emitsError (evs : List UIEvent) : Bool :=
  evs.any fun e =>
    match e with
    | .error _ => true
    | _ => false

/-- Does an event list contain an `st.error` with this exact message? -/
def emitsErrorMessage (msg : String) (evs : List UIEvent) : Bool :=
  evs.any fun e =>
    match e with
    | .error t => t == msg
    | _ => false

/-- Does an event list contain a plotly chart? -/
def emitsPlot (evs : List UIEvent) : Bool :=
  evs.any fun e =>
    match e with
    | .plotlyChart _ => true
    | _ => false

/-- The texts of all chat-message comment elements in an event list. -/
def chatComments (evs : List UIEvent) : List String :=
  evs.filterMap fun e =>
    match e with
    | .chatComment t => some t
    | _ => none

/-- The comment transformation as the spec describes it: first delete every
backslash character, then replace every `[` with `\[*` and every `]` with
`*\]`.  Stated independently of the source's `replace` chain, to be compared
with `renderComment`. -/
def commentTransformSpec (s : String) : String :=
  let noBackslash := s.data.filter fun c => !(c == '\\')
  String.mk (noBackslash.flatMap fun c =>
    if c = '[' then ['\\', '[', '*']
    else if c = ']' then ['*', '\\', ']'] else [c])

/-! ## Concrete fixtures -/

/-- A log with zero blocks and no comments. -/
def emptyParser : LogParser := ⟨[], none, none, none, none, none⟩

/-- A response block whose `walltime` field is not numeric. -/
def walltimeBadBlock : ResponseBlock :=
  ⟨[("status", "OPTIMAL"), ("walltime", "abc")], .ok (.finite 0)⟩

/-- A log whose only block is `walltimeBadBlock`. -/
def walltimeBadParser : LogParser :=
  ⟨[], none, none, none, some walltimeBadBlock, none⟩

/-- A response block that is present but has no `status` field. -/
def noStatusBlock : ResponseBlock :=
  ⟨[("objective", "10")], .ok (.finite 0)⟩

/-- A log whose only block is `noStatusBlock`. -/
def noStatusParser : LogParser :=
  ⟨[], none, none, none, some noStatusBlock, none⟩

/-- A response block with unparseable objective and best-bound fields. -/
def unparseableFieldsBlock : ResponseBlock :=
  ⟨[("status", "FEASIBLE"), ("objective", "abc"), ("best_bound", "xyz")],
    .ok (.finite 0)⟩

/-- A response block whose objective field is the token `inf`. -/
def infObjectiveBlock : ResponseBlock :=
  ⟨[("status", "FEASIBLE"), ("objective", "inf"), ("best_bound", "5")],
    .ok (.finite 0)⟩

/-- An optimal response whose block reports a gap of zero. -/
def optimalDict : PyDict :=
  [("status", "OPTIMAL"), ("objective", "10"), ("best_bound", "10")]

/-- The response block over `optimalDict`, gap accessor returning `0`. -/
def optimalBlock : ResponseBlock := ⟨optimalDict, .ok (.finite 0)⟩

/-- A search-progress block with no data points. -/
def emptySearchBlock : SearchProgressBlock := ⟨0, []⟩

/-- An initial model block classifying the model as an optimization. -/
def optModelBlock : InitialModelBlock := ⟨3, 2, true⟩

/-- A solver block with version `9.9.5` and a worker count of `8`. -/
def solver995 : SolverBlock := ⟨(9, 9, 5), "9.9.5", 8, []⟩

/-! ## Helper lemmas for the event observations -/

@[simp] lemma emitsMetric_nil (lbl : String) : emitsMetric lbl [] = false := rfl

@[simp] lemma emitsMetric_append (lbl : String) (a b : List UIEvent) :
    emitsMetric lbl (a ++ b) = (emitsMetric lbl a || emitsMetric lbl b) := by
  simp [emitsMetric]

@[simp] lemma emitsMetric_cons_metric (lbl l : String) (v : MetricValue)
    (hp : String) (d dc : Option String) (r : List UIEvent) :
    emitsMetric lbl (.metric l v hp d dc :: r) =
      (decide (l = lbl) || emitsMetric lbl r) := by
  simp [emitsMetric]

@[simp] lemma emitsMetric_cons_subheader (lbl t : String) (r : List UIEvent) :
    emitsMetric lbl (.subheader t :: r) = emitsMetric lbl r := by
  simp [emitsMetric]

@[simp] lemma emitsMetric_cons_chat (lbl t : String) (r : List UIEvent) :
    emitsMetric lbl (.chatComment t :: r) = emitsMetric lbl r := by
  simp [emitsMetric]

@[simp] lemma emitsMetric_cons_error (lbl t : String) (r : List UIEvent) :
    emitsMetric lbl (.error t :: r) = emitsMetric lbl r := by
  simp [emitsMetric]

@[simp] lemma emitsMetric_cons_markdown (lbl t : String) (r : List UIEvent) :
    emitsMetric lbl (.markdown t :: r) = emitsMetric lbl r := by
  simp [emitsMetric]

@[simp] lemma emitsMetric_cons_json (lbl : String) (ps : List (String × String))
    (r : List UIEvent) : emitsMetric lbl (.json ps :: r) = emitsMetric lbl r := by
  simp [emitsMetric]

@[simp] lemma emitsMetric_cons_info (lbl t : String) (r : List UIEvent) :
    emitsMetric lbl (.info t :: r) = emitsMetric lbl r := by
  simp [emitsMetric]

@[simp] lemma emitsMetric_cons_plot (lbl : String) (f : Fig) (r : List UIEvent) :
    emitsMetric lbl (.plotlyChart f :: r) = emitsMetric lbl r := by
  simp [emitsMetric]

@[simp] lemma emitsMetric_add_version (lbl : String) (sb? : Option SolverBlock) :
    emitsMetric lbl (add_version_gadget sb?) =
      decide ("CP-SAT Version" = lbl) := by
  cases sb? with
  | none => simp [add_version_gadget, emitsMetric]
  | some sb =>
    obtain ⟨⟨major, minor, patch⟩, v, w, p⟩ := sb
    simp only [add_version_gadget]
    split <;> simp [emitsMetric]

@[simp] lemma emitsMetric_workers (lbl : String) (sb? : Option SolverBlock) :
    emitsMetric lbl (add_number_of_workers_gadget sb?) =
      decide ("Number of workers" = lbl) := by
  cases sb? <;> simp [add_number_of_workers_gadget, emitsMetric]

@[simp] lemma emitsMetric_params (lbl : String) (sb? : Option SolverBlock) :
    emitsMetric lbl (show_parameters sb?) = false := by
  cases sb? with
  | none => rfl
  | some sb =>
    simp only [show_parameters]
    split <;> simp [emitsMetric]

@[simp] lemma emitsErrorMessage_nil (msg : String) :
    emitsErrorMessage msg [] = false := rfl

@[simp] lemma emitsErrorMessage_append (msg : String) (a b : List UIEvent) :
    emitsErrorMessage msg (a ++ b) =
      (emitsErrorMessage msg a || emitsErrorMessage msg b) := by
  simp [emitsErrorMessage]

@[simp] lemma emitsErrorMessage_cons_metric (msg l : String) (v : MetricValue)
    (hp : String) (d dc : Option String) (r : List UIEvent) :
    emitsErrorMessage msg (.metric l v hp d dc :: r) =
      emitsErrorMessage msg r := by
  simp [emitsErrorMessage]

@[simp] lemma emitsErrorMessage_cons_subheader (msg t : String)
    (r : List UIEvent) :
    emitsErrorMessage msg (.subheader t :: r) = emitsErrorMessage msg r := by
  simp [emitsErrorMessage]

@[simp] lemma emitsErrorMessage_cons_chat (msg t : String) (r : List UIEvent) :
    emitsErrorMessage msg (.chatComment t :: r) = emitsErrorMessage msg r := by
  simp [emitsErrorMessage]

@[simp] lemma emitsErrorMessage_cons_markdown (msg t : String)
    (r : List UIEvent) :
    emitsErrorMessage msg (.markdown t :: r) = emitsErrorMessage msg r := by
  simp [emitsErrorMessage]

@[simp] lemma emitsErrorMessage_cons_json (msg : String)
    (ps : List (String × String)) (r : List UIEvent) :
    emitsErrorMessage msg (.json ps :: r) = emitsErrorMessage msg r := by
  simp [emitsErrorMessage]

@[simp] lemma emitsErrorMessage_cons_error (msg t : String) (r : List UIEvent) :
    emitsErrorMessage msg (.error t :: r) =
      ((t == msg) || emitsErrorMessage msg r) := by
  simp [emitsErrorMessage]

@[simp] lemma emitsErrorMessage_add_version (msg : String)
    (sb? : Option SolverBlock) :
    emitsErrorMessage msg (add_version_gadget sb?) = false := by
  cases sb? with
  | none => rfl
  | some sb =>
    obtain ⟨⟨major, minor, patch⟩, v, w, p⟩ := sb
    simp only [add_version_gadget]
    split <;> simp [emitsErrorMessage]

@[simp] lemma emitsErrorMessage_workers (msg : String)
    (sb? : Option SolverBlock) :
    emitsErrorMessage msg (add_number_of_workers_gadget sb?) = false := by
  cases sb? <;> simp [add_number_of_workers_gadget, emitsErrorMessage]

@[simp] lemma emitsErrorMessage_params (msg : String)
    (sb? : Option SolverBlock) :
    emitsErrorMessage msg (show_parameters sb?) = false := by
  cases sb? with
  | none => rfl
  | some sb =>
    simp only [show_parameters]
    split <;> simp [emitsErrorMessage]

/-! ## Claim theorems -/

/-- Claim C1, counterexample: with zero blocks the status metric is never
rendered (with an unknown value or otherwise); instead an error message is
shown, so the report does not complete with every metric present. -/
theorem C1_counterexample :
    emitsMetric "Status" (show_overview emptyParser).events = false ∧
    emitsError (show_overview emptyParser).events = true := ⟨rfl, rfl⟩

set_option maxRecDepth 4000 in
/-- Claim C1, amended: for every input with zero blocks, no exception
escapes `show_overview`; the version metric renders the sentinel `"N/A"`
and the worker metric renders `None`, but the read of the missing status
key aborts the remaining metrics with a `KeyError` that the handler shows
as the incomplete-log error message, so no status or objective metric is
emitted. -/
theorem C1_zero_blocks (parser : LogParser)
    (h1 : parser.solver_block = none) (h2 : parser.initial_model_block = none)
    (h3 : parser.search_progress_block = none)
    (h4 : parser.response_block = none) (h5 : parser.presolve_block = none) :
    (show_overview parser).raised = none ∧
    metricValue "CP-SAT Version" (show_overview parser).events =
      some (.str "N/A") ∧
    metricValue "Number of workers" (show_overview parser).events =
      some .none ∧
    emitsMetric "Status" (show_overview parser).events = false ∧
    emitsMetric "Objective" (show_overview parser).events = false ∧
    emitsErrorMessage (incompleteLogMessage "status")
      (show_overview parser).events = true := by
  obtain ⟨cs, sb, imb, spb, rb, pb⟩ := parser
  simp only at h1 h2 h3 h4 h5
  subst h1 h2 h3 h4 h5
  refine ⟨?_, ?_, ?_, ?_, ?_, ?_⟩ <;> cases cs <;> rfl

/-- Claim C1, witness: the amended statement at the concrete zero-block
log. -/
theorem C1_witness :
    emptyParser.solver_block = none ∧
    (show_overview emptyParser).raised = none ∧
    emitsMetric "Status" (show_overview emptyParser).events = false ∧
    emitsErrorMessage (incompleteLogMessage "status")
      (show_overview emptyParser).events = true := by
  have h := C1_zero_blocks emptyParser rfl rfl rfl rfl rfl
  exact ⟨rfl, h.1, h.2.2.2.1, h.2.2.2.2.2⟩

/-- Claim C3, counterexample: with a ResponseBlock present but missing its
status field, metric entries (the version gadget) are emitted before the
abort, so partial report output is produced. -/
theorem C3_counterexample :
    emitsMetric "CP-SAT Version" (show_overview noStatusParser).events =
      true ∧
    emitsError (show_overview noStatusParser).events = true := ⟨rfl, rfl⟩

/-- Claim C3, amended: when a ResponseBlock is present without a status
field, the hard `KeyError` is raised and surfaced as the explanatory
incomplete-log message naming the status key, no exception escapes, and
none of the status, model or objective metrics are emitted — but the
version and worker gadgets rendered before the status read do appear, so
the partial output consists of exactly those leading entries. -/
theorem C3_missing_status (parser : LogParser) (rb : ResponseBlock)
    (hrb : parser.response_block = some rb)
    (hst : List.lookup "status" rb.to_dict = none) :
    (show_overview parser).raised = none ∧
    emitsErrorMessage (incompleteLogMessage "status")
      (show_overview parser).events = true ∧
    emitsMetric "Status" (show_overview parser).events = false ∧
    emitsMetric "Variables" (show_overview parser).events = false ∧
    emitsMetric "Objective" (show_overview parser).events = false ∧
    emitsMetric "CP-SAT Version" (show_overview parser).events = true := by
  have hsm : show_status_metrics rb.to_dict parser.search_progress_block =
      ([], some (.keyError "status")) := by
    simp [show_status_metrics, dictGet, hst]
  refine ⟨?_, ?_, ?_, ?_, ?_, ?_⟩ <;>
    simp only [show_overview, show_overview_body, hrb, hsm] <;>
    cases parser.comments <;> simp

/-- Claim C3, witness: the amended statement at a concrete log whose only
block is a ResponseBlock without a status key. -/
theorem C3_witness :
    noStatusParser.response_block = some noStatusBlock ∧
    (show_overview noStatusParser).raised = none ∧
    emitsErrorMessage (incompleteLogMessage "status")
      (show_overview noStatusParser).events = true ∧
    emitsMetric "Status" (show_overview noStatusParser).events = false := by
  have h := C3_missing_status noStatusParser noStatusBlock rfl rfl
  exact ⟨rfl, h.1, h.2.1, h.2.2.1⟩

/-- Claim C4: for a present SolverBlock the version metric carries the
`"outdated"` delta exactly when `major < 9 ∨ (major = 9 ∧ minor < 10)`,
independently of the patch component (which the flag never inspects);
otherwise the delta is absent, flagging the version as current. -/
theorem C4_version_outdated_iff (sb : SolverBlock) :
    metricDelta "CP-SAT Version" (add_version_gadget (some sb)) =
      some (if sb.get_parsed_version.1 < 9 ∨
              (sb.get_parsed_version.1 = 9 ∧ sb.get_parsed_version.2.1 < 10)
            then some "outdated" else none) := by
  obtain ⟨⟨major, minor, patch⟩, v, w, p⟩ := sb
  simp only [add_version_gadget]
  split <;> simp_all [metricDelta]

/-- Claim C6: a search-progress plot is emitted exactly when the status is
OPTIMAL or FEASIBLE, the SearchProgressBlock is present with at least one
data point, and the InitialModelBlock is present and classifies the model
as an optimization; in every other case no plot event is produced and the
function returns normally. -/
theorem C6_plot_iff (response : PyDict) (spb? : Option SearchProgressBlock)
    (imb? : Option InitialModelBlock) :
    emitsPlot (show_search_plot response spb? imb?).events = true ↔
      ((∃ s, List.lookup "status" response = some s ∧
          (s = "OPTIMAL" ∨ s = "FEASIBLE")) ∧
       (∃ spb, spb? = some spb ∧ spb.data ≠ []) ∧
       (∃ imb, imb? = some imb ∧ imb.is_optimization = true)) := by
  cases hs : List.lookup "status" response <;> cases spb? <;> cases imb? <;>
    simp only [show_search_plot, hs] <;> try simp [emitsPlot]
  rename_i s spb imb
  split_ifs with hc
  · cases h2 : spb.as_plotly <;>
      simp_all [SearchProgressBlock.as_plotly, emitsPlot]
  · simp_all [emitsPlot]

/-- Claim C7, counterexample: with an eligible status and an optimization
model but a SearchProgressBlock holding no data points, `as_plotly` is
still invoked (its empty result is discarded afterwards), contradicting
that the absence of data short-circuits before the call. -/
theorem C7_counterexample :
    (show_search_plot [("status", "OPTIMAL")] (some emptySearchBlock)
        (some optModelBlock)).asPlotlyCalled = true ∧
    emitsPlot (show_search_plot [("status", "OPTIMAL")] (some emptySearchBlock)
        (some optModelBlock)).events = false := ⟨rfl, rfl⟩

/-- Claim C7, amended: `as_plotly` is invoked exactly when the eligibility
precondition holds — status OPTIMAL or FEASIBLE, both blocks present, and
an optimization model — regardless of whether the SearchProgressBlock has
data points; emptiness is handled after the call by discarding the falsy
figure, not by short-circuiting before it. -/
theorem C7_as_plotly_called_iff (response : PyDict)
    (spb? : Option SearchProgressBlock) (imb? : Option InitialModelBlock) :
    (show_search_plot response spb? imb?).asPlotlyCalled = true ↔
      ((∃ s, List.lookup "status" response = some s ∧
          (s = "OPTIMAL" ∨ s = "FEASIBLE")) ∧
       spb?.isSome = true ∧
       (∃ imb, imb? = some imb ∧ imb.is_optimization = true)) := by
  cases hs : List.lookup "status" response <;> cases spb? <;> cases imb? <;>
    simp only [show_search_plot, hs] <;> try simp
  rename_i s spb imb
  split_ifs with hc
  · cases h2 : spb.as_plotly <;> simp_all
  · simp_all

/-- Claim C8, counterexample: with no SolverBlock the worker-count metric's
value is Python `None`, which is not the explicit string `"N/A"`. -/
theorem C8_counterexample :
    metricValue "Number of workers" (add_number_of_workers_gadget none) =
      some MetricValue.none ∧
    MetricValue.none ≠ MetricValue.str "N/A" := ⟨rfl, by decide⟩

/-- Claim C8, amended: the worker-count metric renders Python `None` (the
absent sentinel, not the string `"N/A"`) when the SolverBlock is missing,
and is a passthrough of the block's worker count when present. -/
theorem C8_workers_passthrough (sb? : Option SolverBlock) :
    metricValue "Number of workers" (add_number_of_workers_gadget sb?) =
      some (match sb? with
            | some sb => MetricValue.int sb.get_number_of_workers
            | none => MetricValue.none) := by
  cases sb? <;> rfl

/-- Claim C2, counterexample: a present ResponseBlock whose walltime field
is non-numeric makes `float(response["walltime"])` raise a `ValueError`
that is caught nowhere and escapes `show_overview`, so this parse failure
is not contained within its metric deriver. -/
theorem C2_counterexample :
    (show_overview walltimeBadParser).raised = some (.valueError "abc") := rfl

/-- Claim C2, amended: for a present ResponseBlock, parse failures of the
objective and best-bound fields and a `ValueError` from the gap accessor
are soft errors contained inside `show_objective_metrics` — the affected
metrics render as `None` and no error leaves the function; the walltime
field, however, is parsed without such a guard and its failure escapes
(see the counterexample), as does the hard `KeyError` on the status
field. -/
theorem C2_soft_errors_contained (rb : ResponseBlock) (s₁ s₂ m₁ m₂ : String)
    (h1 : List.lookup "objective" rb.to_dict = some s₁)
    (h2 : pyFloat s₁ = .error (.valueError m₁))
    (h3 : List.lookup "best_bound" rb.to_dict = some s₂)
    (h4 : pyFloat s₂ = .error (.valueError m₂))
    (h5 : (∃ g, rb.get_gap = .ok g) ∨ ∃ m, rb.get_gap = .error (.valueError m)) :
    (show_objective_metrics rb.to_dict (some rb)).2 = none ∧
    metricValue "Objective" (show_objective_metrics rb.to_dict (some rb)).1 =
      some .none ∧
    metricValue "Best bound" (show_objective_metrics rb.to_dict (some rb)).1 =
      some .none := by
  have ho : parseFloatField rb.to_dict "objective" = .ok none := by
    simp [parseFloatField, dictGet, h1, h2, tryExceptValueError]
  have hb : parseFloatField rb.to_dict "best_bound" = .ok none := by
    simp [parseFloatField, dictGet, h3, h4, tryExceptValueError]
  rcases h5 with ⟨g, hg⟩ | ⟨m, hg⟩ <;>
    simp [show_objective_metrics, ho, hb, hg, tryExceptValueError,
      metricValue, floatOptVal]

/-- Claim C2, witness: the amended statement at a concrete block whose
objective and best-bound fields are both unparseable. -/
theorem C2_witness :
    (show_objective_metrics unparseableFieldsBlock.to_dict
        (some unparseableFieldsBlock)).2 = none ∧
    metricValue "Objective" (show_objective_metrics
        unparseableFieldsBlock.to_dict (some unparseableFieldsBlock)).1 =
      some .none := by
  have h := C2_soft_errors_contained unparseableFieldsBlock "abc" "xyz"
    "abc" "xyz" rfl rfl rfl rfl (.inl ⟨.finite 0, rfl⟩)
  exact ⟨h.1, h.2.1⟩

/-- Claim C5, counterexample: Python's `float("inf")` succeeds, so an
objective field holding the token `inf` renders the objective metric as
the float infinity, not as the unavailable sentinel `None`. -/
theorem C5_counterexample :
    metricValue "Objective" (show_objective_metrics infObjectiveBlock.to_dict
        (some infObjectiveBlock)).1 = some (.float (.inf false)) ∧
    MetricValue.float (.inf false) ≠ MetricValue.none := ⟨rfl, by decide⟩

/-- Claim C5, amended: an objective field whose text is genuinely rejected
by the float grammar renders the objective metric as unavailable (`None`)
with no exception escaping the deriver; the token `inf` is not such a
text, since the grammar accepts it as positive infinity. -/
theorem C5_unparseable_objective (response : PyDict)
    (rb? : Option ResponseBlock) (s m : String)
    (h1 : List.lookup "objective" response = some s)
    (h2 : pyFloat s = .error (.valueError m)) :
    metricValue "Objective" (show_objective_metrics response rb?).1 =
      some MetricValue.none ∧
    pyFloat "inf" = .ok (.inf false) := by
  have ho : parseFloatField response "objective" = .ok none := by
    simp [parseFloatField, dictGet, h1, h2, tryExceptValueError]
  refine ⟨?_, rfl⟩
  simp only [show_objective_metrics, ho]
  split <;> try split
  all_goals simp [metricValue, floatOptVal]

/-- Claim C5, witness: the amended statement at a concrete response whose
objective field is a non-numeric token. -/
theorem C5_witness :
    metricValue "Objective"
      (show_objective_metrics [("objective", "not-a-number")] none).1 =
      some MetricValue.none :=
  (C5_unparseable_objective [("objective", "not-a-number")] none
    "not-a-number" "not-a-number" rfl rfl).1

/-- Claim C9: whenever `show_objective_metrics` completes without error for
a present ResponseBlock, the gap metric value is a function of the block's
own `get_gap` accessor alone — never recomputed from the objective or
best-bound fields — rendered as the accessor's value formatted to two
decimal places with a percent sign when available and as `None` when the
accessor fails with a `ValueError`; a gap of `0` formats as `"0.00%"`. -/
theorem C9_gap_from_accessor (response : PyDict) (rb : ResponseBlock)
    (hdone : (show_objective_metrics response (some rb)).2 = none) :
    metricValue "Gap" (show_objective_metrics response (some rb)).1 =
      some (match rb.get_gap with
            | .ok g => MetricValue.str (formatFixed 2 g ++ "%")
            | .error _ => MetricValue.none) ∧
    formatFixed 2 (.finite 0) ++ "%" = "0.00%" := by
  refine ⟨?_, rfl⟩
  simp only [show_objective_metrics] at hdone ⊢
  revert hdone
  rcases ho : parseFloatField response "objective" with e | obj <;> intro hdone
  · simp at hdone
  · revert hdone
    rcases hb : parseFloatField response "best_bound" with e | bound <;>
      intro hdone
    · simp at hdone
    · revert hdone
      rcases hg : rb.get_gap with e | g <;> intro hdone
      · cases e with
        | valueError m => simp [tryExceptValueError, metricValue]
        | keyError k => simp [tryExceptValueError] at hdone
      · simp [tryExceptValueError, metricValue]

/-- Claim C9, witness: on the OPTIMAL response with objective and best
bound both `10` and a block gap accessor returning `0`, the gap metric
renders `"0.00%"`. -/
theorem C9_witness :
    metricValue "Gap"
      (show_objective_metrics optimalDict (some optimalBlock)).1 =
      some (.str "0.00%") :=
  ((C9_gap_from_accessor optimalDict optimalBlock rfl).1).trans rfl

/-! ## The comment transformation (claim C10) -/

lemma pyReplaceAux_single (a : Char) (repl : List Char) (l : List Char) :
    pyReplaceAux [a] repl l =
      l.flatMap fun c => if c = a then repl else [c] := by
  induction l with
  | nil => simp [pyReplaceAux]
  | cons c rest ih =>
    rw [pyReplaceAux]
    by_cases hca : a = c
    · subst hca
      simp [List.isPrefixOf, ih]
    · simp [List.isPrefixOf, hca, ih, Ne.symm hca]

lemma flatMap_empty_eq_filter (a : Char) (l : List Char) :
    (l.flatMap fun c => if c = a then [] else [c]) =
      l.filter fun c => !(c == a) := by
  induction l with
  | nil => rfl
  | cons c rest ih =>
    by_cases hca : c = a <;> simp [hca, ih]

lemma bracketMap_pointwise (c : Char) :
    ((if c = '[' then ['\\', '[', '*'] else [c]).flatMap
      fun x => if x = ']' then ['*', '\\', ']'] else [x]) =
      (if c = '[' then ['\\', '[', '*']
       else if c = ']' then ['*', '\\', ']'] else [c]) := by
  by_cases h1 : c = '['
  · subst h1; rfl
  · simp only [h1, if_false]
    by_cases h2 : c = ']' <;> simp [h2]

/-- The source's chain of three `replace` calls computes exactly the spec's
description: delete the backslashes, then map each bracket to its escaped
starred form. -/
lemma renderComment_eq_spec (comments : List String) :
    renderComment comments =
      commentTransformSpec (String.intercalate "\n" comments) := by
  unfold renderComment commentTransformSpec pyReplace
  apply congrArg String.mk
  rw [show ("\\" : String).data = ['\\'] from rfl,
    show ("" : String).data = [] from rfl,
    show ("[" : String).data = ['['] from rfl,
    show ("\\[*" : String).data = ['\\', '[', '*'] from rfl,
    show ("]" : String).data = [']'] from rfl,
    show ("*\\]" : String).data = ['*', '\\', ']'] from rfl]
  rw [pyReplaceAux_single, pyReplaceAux_single, pyReplaceAux_single]
  rw [flatMap_empty_eq_filter]
  rw [List.flatMap_assoc]
  apply congrArg
  funext c
  exact bracketMap_pointwise c

@[simp] lemma chatComments_nil : chatComments [] = [] := rfl

@[simp] lemma chatComments_append (a b : List UIEvent) :
    chatComments (a ++ b) = chatComments a ++ chatComments b := by
  simp [chatComments]

@[simp] lemma chatComments_cons_subheader (t : String) (r : List UIEvent) :
    chatComments (.subheader t :: r) = chatComments r := by
  simp [chatComments]

@[simp] lemma chatComments_cons_chat (t : String) (r : List UIEvent) :
    chatComments (.chatComment t :: r) = t :: chatComments r := by
  simp [chatComments]

@[simp] lemma chatComments_cons_error (t : String) (r : List UIEvent) :
    chatComments (.error t :: r) = chatComments r := by
  simp [chatComments]

@[simp] lemma chatComments_add_version (sb? : Option SolverBlock) :
    chatComments (add_version_gadget sb?) = [] := by
  cases sb? with
  | none => rfl
  | some sb =>
    obtain ⟨⟨major, minor, patch⟩, v, w, p⟩ := sb
    simp only [add_version_gadget]
    split <;> simp [chatComments]

@[simp] lemma chatComments_workers (sb? : Option SolverBlock) :
    chatComments (add_number_of_workers_gadget sb?) = [] := by
  cases sb? <;> simp [add_number_of_workers_gadget, chatComments]

@[simp] lemma chatComments_params (sb? : Option SolverBlock) :
    chatComments (show_parameters sb?) = [] := by
  cases sb? with
  | none => rfl
  | some sb =>
    simp only [show_parameters]
    split <;> simp [chatComments]

@[simp] lemma chatComments_status (r : PyDict)
    (spb? : Option SearchProgressBlock) :
    chatComments (show_status_metrics r spb?).1 = [] := by
  simp only [show_status_metrics]
  split
  · rfl
  · split <;> simp [chatComments]

@[simp] lemma chatComments_model (imb? : Option InitialModelBlock) :
    chatComments (show_model_metrics imb?) = [] := by
  simp [show_model_metrics, chatComments]

@[simp] lemma chatComments_objective (r : PyDict)
    (rb? : Option ResponseBlock) :
    chatComments (show_objective_metrics r rb?).1 = [] := by
  simp only [show_objective_metrics]
  split
  · rfl
  · split
    · simp [chatComments]
    · split <;> simp [chatComments]

@[simp] lemma chatComments_plot (r : PyDict)
    (spb? : Option SearchProgressBlock) (imb? : Option InitialModelBlock) :
    chatComments (show_search_plot r spb? imb?).events = [] := by
  simp only [show_search_plot]
  split
  · split
    · split <;> simp [chatComments]
    · rfl
  · rfl

lemma chatComments_presolve (pb? : Option PresolveSummaryBlock) :
    chatComments
      (match pb? with
       | some p =>
         if p.is_solved_by_presolve then [.info presolveSolvedInfo] else []
       | none => []) = [] := by
  cases pb? with
  | none => rfl
  | some p =>
    by_cases hp : p.is_solved_by_presolve <;> simp [hp, chatComments]

@[simp] lemma chatComments_body (parser : LogParser) :
    chatComments (show_overview_body parser).events = [] := by
  simp only [show_overview_body]
  rcases hS : show_status_metrics
      (match parser.response_block with
       | some r => r.to_dict
       | none => []) parser.search_progress_block with ⟨evS, errS⟩
  have hS1 : chatComments evS = [] := by
    have h := congrArg Prod.fst hS
    simp only at h
    rw [← h]
    exact chatComments_status _ _
  cases errS with
  | some e => simp [hS1]
  | none =>
    rcases hO : show_objective_metrics
        (match parser.response_block with
         | some r => r.to_dict
         | none => []) parser.response_block with ⟨evO, errO⟩
    have hO1 : chatComments evO = [] := by
      have h := congrArg Prod.fst hO
      simp only at h
      rw [← h]
      exact chatComments_objective _ _
    cases errO with
    | some e => simp [hS1, hO1]
    | none => simp [hS1, hO1, chatComments_presolve]

/-- Claim C10: the chat-message comment elements of the rendered overview
are exactly one element holding the newline-join of the comment lines with
every backslash deleted first and every `[` and `]` then replaced by
`\[*` and `*\]` respectively — and no element at all when the comment
list is empty. -/
theorem C10_comment_rendering (parser : LogParser) :
    chatComments (show_overview parser).events =
      (if parser.comments.isEmpty then []
       else [commentTransformSpec (String.intercalate "\n" parser.comments)]) := by
  simp only [show_overview]
  rcases herr : (show_overview_body parser).err with _ | e
  · by_cases hc : parser.comments.isEmpty <;> simp [hc, renderComment_eq_spec]
  · cases e <;>
      (by_cases hc : parser.comments.isEmpty <;>
        simp [hc, renderComment_eq_spec])

end Overview
